import Mathlib

/-!
Shallow embedding of the "Contrato de Sangue" Foundry VTT system
(module/contracto-actor.js and module/contrato-de-sangue.js).

The character record is modelled in two stages:
* `ActorInput` is the raw record as it may exist before derived data is
  prepared: attribute fields may be absent (`Option Int`, `none` = field
  missing so the JS `?? default` kicks in) and the resource-pool current
  value may be in a non-numeric state (`none` = `typeof current != 'number'`).
* `ActorState` is the record after `prepareDerivedData` has run: every
  field holds a concrete integer.

Host-provided collaborators (Foundry dice, chat, Simple Calendar) are
external; die draws and timestamps enter as explicit parameters, the chat
message is ignored, and a successful `api.addEvent` call is recorded in the
`scheduled` list.
-/

/-- One entry of the per-actor `contrato-de-sangue.history` flag. -/
inductive HistoryEntry where
  | mortalidade (timestamp : Nat) (level : String) (mort : Int)
  | roll (timestamp : Nat) (skill : String) (total : Int)
      (humanidade : Int) (bestialidade : Int) (mort : Int)
  deriving Repr, DecidableEq

/-- The raw actor record before `prepareDerivedData` normalizes it.
`none` models an absent field (`?? default` in the JS) or, for
`reservaCurrent`, a value with `typeof != 'number'`. -/
structure ActorInput where
  humanidade : Option Int
  bestialidade : Option Int
  mortalidade : Option Int
  reservaCurrent : Option Int
  skills : List (String × Int)
  lastMortalityLevel : Option String
  history : List HistoryEntry
  scheduled : List String
  deriving Repr, DecidableEq

/-- The actor record after `prepareDerivedData`: all derived fields set. -/
structure ActorState where
  humanidade : Int
  bestialidade : Int
  mortalidade : Int
  reservaCurrent : Int
  reservaMax : Int
  penalty : Int
  hunt : String
  skills : List (String × Int)
  lastMortalityLevel : Option String
  history : List HistoryEntry
  scheduled : List String
  deriving Repr, DecidableEq

attribute [ext] ActorState

/-- Re-reading a normalized record gives back a raw record whose fields are
all present (every `Option` is `some`). -/
def ActorState.toInput (s : ActorState) : ActorInput :=
  { humanidade := some s.humanidade
    bestialidade := some s.bestialidade
    mortalidade := some s.mortalidade
    reservaCurrent := some s.reservaCurrent
    skills := s.skills
    lastMortalityLevel := s.lastMortalityLevel
    history := s.history
    scheduled := s.scheduled }

/-- The `if mort >= 3 && mort <= 5 ... else if ...` cascade of
`prepareDerivedData` (lines 46-61): penalty tier and hunt frequency as a
function of Mortalidade. -/
def mortalityTier (mort : Int) : Int × String :=
  if 3 ≤ mort ∧ mort ≤ 5 then (1, "weekly")
  else if 6 ≤ mort ∧ mort ≤ 8 then (2, "twice-weekly")
  else if 9 ≤ mort ∧ mort ≤ 11 then (3, "daily")
  else if 12 ≤ mort then (4, "constant")
  else (0, "none")

/-- Lines 30-34: if Humanidade + Bestialidade differs from 12, Bestialidade
is recomputed as `Math.max(0, 12 - humanidade)`; otherwise it is kept. -/
def normalizeBestialidade (humanidade bestialidade : Int) : Int :=
  if humanidade + bestialidade ≠ 12 then max 0 (12 - humanidade)
  else bestialidade

/-- Lines 40-42: `current` is reset to `max` when it is not a number or
exceeds `max`; any other numeric value is kept. -/
def clampReserva (rmax : Int) : Option Int → Int
  | none => rmax
  | some c => if c > rmax then rmax else c

/-- `ContractoActor.prepareDerivedData` (contracto-actor.js lines 17-85).
`now` stands for `Date.now()` at the history append. -/
def prepareDerivedData (now : Nat) (a : ActorInput) : ActorState :=
  let humanidade := a.humanidade.getD 6
  let bestialidade0 := a.bestialidade.getD 6
  let mort := a.mortalidade.getD 0
  let bestialidade := normalizeBestialidade humanidade bestialidade0
  let rmax := bestialidade + 1
  let rcur := clampReserva rmax a.reservaCurrent
  let tier := mortalityTier mort
  let base : ActorState :=
    { humanidade := humanidade
      bestialidade := bestialidade
      mortalidade := mort
      reservaCurrent := rcur
      reservaMax := rmax
      penalty := tier.1
      hunt := tier.2
      skills := a.skills
      lastMortalityLevel := a.lastMortalityLevel
      history := a.history
      scheduled := a.scheduled }
  if a.lastMortalityLevel ≠ some tier.2 then
    { base with
      lastMortalityLevel := some tier.2
      scheduled :=
        if tier.2 ≠ "none" then base.scheduled ++ [tier.2] else base.scheduled
      history := base.history ++ [HistoryEntry.mortalidade now tier.2 mort] }
  else base

/-- `Number(this.system.skills[skillKey] || 0)`: rating lookup, default 0. -/
def skillLookup (skills : List (String × Int)) (key : String) : Int :=
  (skills.lookup key).getD 0

/-- `Math.ceil(x / 2)` on an integer `x`. -/
def ceilHalf (x : Int) : Int := Int.ediv (x + 1) 2

/-- The skill keys of `CONFIG.Contrato.skills` (contrato-de-sangue.js). -/
def configSkills : List String :=
  ["atletismo", "briga", "conducao", "furtividade", "sobrevivencia",
   "computadores", "investigacao", "medicina", "ocultismo", "ciencias",
   "empatia", "expressao", "intimidacao", "persuasao", "subterfugio",
   "armasBrancas", "armasDeFogo", "defesa"]

/-- `ContractoActor.#executeSkillRoll` (lines 202-259). `umbral = false`
is the Sagrado button. `d6` and `d12` are the external die draws; `now` is
`Date.now()` at the history append. Returns the updated actor and the
total handed back to the caller. -/
def executeSkillRoll (now : Nat) (d6 d12 : Int) (skillKey : String)
    (umbral : Bool) (situationalMod : Int) (a : ActorState) :
    ActorState × Int :=
  let skillVal := skillLookup a.skills skillKey
  let human := a.humanidade
  let bestia := a.bestialidade
  let newCurrent := max 0 (a.reservaCurrent - 1)
  let d6Value := if umbral then d6 else ceilHalf d6
  let a1 :=
    if umbral then
      let newBestialidade := min 11 (bestia + 1)
      let newHumanidade := max 0 (12 - newBestialidade)
      { a with
        reservaCurrent := newCurrent
        bestialidade := newBestialidade
        humanidade := newHumanidade }
    else { a with reservaCurrent := newCurrent }
  let total := d12 + skillVal + d6Value + situationalMod
  let entry := HistoryEntry.roll now skillKey total human bestia a1.mortalidade
  ({ a1 with history := a1.history ++ [entry] }, total)

/-- The user-facing rejections of `ContractoActor.rollSkill`. -/
inductive RollError where
  | unknownSkill
  | noResourceAvailable
  deriving Repr, DecidableEq

/-- `ContractoActor.rollSkill` (lines 135-191), with the dialog outcome
(mode button and situational modifier) and the die draws supplied as
parameters. The precondition checks happen before any state change: an
unknown skill or an empty reserve returns the actor untouched together
with the reported warning. -/
def rollSkill (now : Nat) (d6 d12 : Int) (skillKey : String)
    (umbral : Bool) (situationalMod : Int) (a : ActorState) :
    ActorState × Option Int × Option RollError :=
  if skillKey ∉ configSkills then (a, none, some RollError.unknownSkill)
  else if a.reservaCurrent ≤ 0 then (a, none, some RollError.noResourceAvailable)
  else
    let r := executeSkillRoll now d6 d12 skillKey umbral situationalMod a
    (r.1, some r.2, none)

/-- One Deriver invocation on a settled record after an external edit sets
Mortalidade to `p.2`, with `Date.now()` returning `p.1`. -/
def applyCorruptionEdit (s : ActorState) (p : Nat × Int) : ActorState :=
  prepareDerivedData p.1 { s.toInput with mortalidade := some p.2 }

/-- A sequence of Deriver invocations, each preceded by an external
Mortalidade edit. -/
def runDeriver (s : ActorState) (updates : List (Nat × Int)) : ActorState :=
  updates.foldl applyCorruptionEdit s

/-- How many entries of a hunt-frequency sequence differ from the running
last-seen marker, starting from marker `last`. -/
def countTransitions : Option String → List String → Nat
  | _, [] => 0
  | last, f :: rest =>
      (if last ≠ some f then 1 else 0) + countTransitions (some f) rest

/-! ### Projection lemmas for `prepareDerivedData` -/

theorem prepare_humanidade (now : Nat) (a : ActorInput) :
    (prepareDerivedData now a).humanidade = a.humanidade.getD 6 := by
  simp only [prepareDerivedData]
  split <;> rfl

theorem prepare_bestialidade (now : Nat) (a : ActorInput) :
    (prepareDerivedData now a).bestialidade
      = normalizeBestialidade (a.humanidade.getD 6) (a.bestialidade.getD 6) := by
  simp only [prepareDerivedData]
  split <;> rfl

theorem prepare_mortalidade (now : Nat) (a : ActorInput) :
    (prepareDerivedData now a).mortalidade = a.mortalidade.getD 0 := by
  simp only [prepareDerivedData]
  split <;> rfl

theorem prepare_reservaMax (now : Nat) (a : ActorInput) :
    (prepareDerivedData now a).reservaMax
      = normalizeBestialidade (a.humanidade.getD 6) (a.bestialidade.getD 6) + 1 := by
  simp only [prepareDerivedData]
  split <;> rfl

theorem prepare_reservaCurrent (now : Nat) (a : ActorInput) :
    (prepareDerivedData now a).reservaCurrent
      = clampReserva ((prepareDerivedData now a).reservaMax) a.reservaCurrent := by
  rw [prepare_reservaMax]
  simp only [prepareDerivedData]
  split <;> rfl

theorem prepare_penalty (now : Nat) (a : ActorInput) :
    (prepareDerivedData now a).penalty = (mortalityTier (a.mortalidade.getD 0)).1 := by
  simp only [prepareDerivedData]
  split <;> rfl

theorem prepare_hunt (now : Nat) (a : ActorInput) :
    (prepareDerivedData now a).hunt = (mortalityTier (a.mortalidade.getD 0)).2 := by
  simp only [prepareDerivedData]
  split <;> rfl

theorem prepare_skills (now : Nat) (a : ActorInput) :
    (prepareDerivedData now a).skills = a.skills := by
  simp only [prepareDerivedData]
  split <;> rfl

theorem prepare_lastLevel (now : Nat) (a : ActorInput) :
    (prepareDerivedData now a).lastMortalityLevel
      = some (mortalityTier (a.mortalidade.getD 0)).2 := by
  simp only [prepareDerivedData]
  split
  · rfl
  · next h => simpa using h

theorem prepare_history (now : Nat) (a : ActorInput) :
    (prepareDerivedData now a).history
      = if a.lastMortalityLevel ≠ some (mortalityTier (a.mortalidade.getD 0)).2 then
          a.history
            ++ [HistoryEntry.mortalidade now (mortalityTier (a.mortalidade.getD 0)).2
                  (a.mortalidade.getD 0)]
        else a.history := by
  simp only [prepareDerivedData]
  split <;> simp_all

theorem prepare_scheduled (now : Nat) (a : ActorInput) :
    (prepareDerivedData now a).scheduled
      = if a.lastMortalityLevel ≠ some (mortalityTier (a.mortalidade.getD 0)).2 then
          (if (mortalityTier (a.mortalidade.getD 0)).2 ≠ "none" then
            a.scheduled ++ [(mortalityTier (a.mortalidade.getD 0)).2]
          else a.scheduled)
        else a.scheduled := by
  simp only [prepareDerivedData]
  split <;> simp_all

/-! ### Normal form of the corruption tier cascade -/

theorem mortalityTier_eq (m : Int) :
    mortalityTier m
      = if m ≤ 2 then (0, "none")
        else if m ≤ 5 then (1, "weekly")
        else if m ≤ 8 then (2, "twice-weekly")
        else if m ≤ 11 then (3, "daily")
        else (4, "constant") := by
  unfold mortalityTier
  split_ifs <;> first | rfl | (exfalso; omega)

/-! ### Concrete fixtures -/

/-- A well-formed record: Humanidade 6 / Bestialidade 6, reserve 3 of 7. -/
def baseInput : ActorInput :=
  { humanidade := some 6
    bestialidade := some 6
    mortalidade := some 0
    reservaCurrent := some 3
    skills := [("briga", 3)]
    lastMortalityLevel := some "none"
    history := []
    scheduled := [] }

/-- `baseInput` with Humanidade externally edited to 13. -/
def inputHuman13 : ActorInput := { baseInput with humanidade := some 13 }

/-- `baseInput` with the reserve left at the negative value -3. -/
def inputNegReserva : ActorInput := { baseInput with reservaCurrent := some (-3) }

/-- `baseInput` with Mortalidade set to `m`. -/
def inputMort (m : Int) : ActorInput := { baseInput with mortalidade := some m }

/-! ### C1 -/

/-- C1 (amended): for every input record whose Humanidade (after the
`?? 6` default) lies in `[1, 12]`, after `prepareDerivedData` runs,
`humanidade + bestialidade = 12` and `bestialidade ∈ [0, 11]`. The
restriction to `[1, 12]` is forced: the code adjusts only Bestialidade
(`Math.max(0, 12 - humanidade)`) and leaves Humanidade as given, so a
Humanidade outside `[1, 12]` breaks the sum or the Bestialidade range. -/
theorem spec_C1_attributes_sum (now : Nat) (a : ActorInput)
    (h1 : 1 ≤ a.humanidade.getD 6) (h2 : a.humanidade.getD 6 ≤ 12) :
    (prepareDerivedData now a).humanidade + (prepareDerivedData now a).bestialidade = 12 ∧
    0 ≤ (prepareDerivedData now a).bestialidade ∧
    (prepareDerivedData now a).bestialidade ≤ 11 := by
  rw [prepare_humanidade, prepare_bestialidade]
  unfold normalizeBestialidade
  split <;> omega

/-- C1 witness: the invariant holds concretely on `baseInput`. -/
theorem spec_C1_witness :
    (1 ≤ baseInput.humanidade.getD 6 ∧ baseInput.humanidade.getD 6 ≤ 12) ∧
    ((prepareDerivedData 0 baseInput).humanidade
        + (prepareDerivedData 0 baseInput).bestialidade = 12 ∧
      0 ≤ (prepareDerivedData 0 baseInput).bestialidade ∧
      (prepareDerivedData 0 baseInput).bestialidade ≤ 11) :=
  ⟨⟨by decide, by decide⟩, spec_C1_attributes_sum 0 baseInput (by decide) (by decide)⟩

/-- C1 counterexample: with Humanidade externally edited to 13, the Deriver
leaves Humanidade at 13 and sets Bestialidade to 0, so the sum is 13, not
12 — the claim fails for inputs with Humanidade outside `[1, 12]`. -/
theorem spec_C1_counterexample :
    ¬((prepareDerivedData 0 inputHuman13).humanidade
        + (prepareDerivedData 0 inputHuman13).bestialidade = 12 ∧
      0 ≤ (prepareDerivedData 0 inputHuman13).bestialidade ∧
      (prepareDerivedData 0 inputHuman13).bestialidade ≤ 11) := by
  decide

/-! ### C2 -/

/-- C2 (amended): after the Deriver runs, `reservaDados.max = bestialidade
+ 1` and `reservaDados.current ≤ max`; a numeric `current ≤ max`
(including a negative one) is left unchanged — never silently raised — a
numeric `current > max` is snapped down to `max`, and a non-numeric
`current` is reset to `max`. The lower bound `0 ≤ current` of the original
claim does not hold: the code never raises a negative `current`. -/
theorem spec_C2_reserva (now : Nat) (a : ActorInput) :
    (prepareDerivedData now a).reservaMax = (prepareDerivedData now a).bestialidade + 1 ∧
    (prepareDerivedData now a).reservaCurrent ≤ (prepareDerivedData now a).reservaMax ∧
    (∀ c : Int, a.reservaCurrent = some c → c ≤ (prepareDerivedData now a).reservaMax →
      (prepareDerivedData now a).reservaCurrent = c) ∧
    (∀ c : Int, a.reservaCurrent = some c → (prepareDerivedData now a).reservaMax < c →
      (prepareDerivedData now a).reservaCurrent = (prepareDerivedData now a).reservaMax) ∧
    (a.reservaCurrent = none →
      (prepareDerivedData now a).reservaCurrent = (prepareDerivedData now a).reservaMax) := by
  rw [prepare_reservaCurrent, prepare_reservaMax, prepare_bestialidade]
  refine ⟨rfl, ?_, ?_, ?_, ?_⟩
  · rcases a.reservaCurrent with _ | c
    · simp [clampReserva]
    · simp only [clampReserva]
      split <;> omega
  · rintro c hc h
    rw [hc]
    simp only [clampReserva]
    split <;> omega
  · rintro c hc h
    rw [hc]
    simp only [clampReserva]
    split <;> omega
  · intro hc
    rw [hc]
    rfl

/-- C2 witness: on `baseInput` (reserve 3 of max 7) the reserve maximum is
Bestialidade + 1 and the in-bounds current value 3 is left unchanged. -/
theorem spec_C2_witness :
    (prepareDerivedData 0 baseInput).reservaMax
      = (prepareDerivedData 0 baseInput).bestialidade + 1 ∧
    (prepareDerivedData 0 baseInput).reservaCurrent
      ≤ (prepareDerivedData 0 baseInput).reservaMax ∧
    (prepareDerivedData 0 baseInput).reservaCurrent = 3 :=
  ⟨(spec_C2_reserva 0 baseInput).1, (spec_C2_reserva 0 baseInput).2.1,
    (spec_C2_reserva 0 baseInput).2.2.1 3 rfl (by decide)⟩

/-- C2 counterexample: a prior `current = -3` survives the Deriver
unchanged (`typeof` is a number and `-3 > max` is false), so
`current ∈ [0, max]` fails for negative prior values. -/
theorem spec_C2_counterexample :
    ¬(0 ≤ (prepareDerivedData 0 inputNegReserva).reservaCurrent ∧
      (prepareDerivedData 0 inputNegReserva).reservaCurrent
        ≤ (prepareDerivedData 0 inputNegReserva).reservaMax) := by
  decide

/-! ### C3 -/

/-- C3: for every Mortalidade value, the Deriver computes the penalty tier
and hunt frequency as the step function of the spec table: 0-2 gives
0/none, 3-5 gives 1/weekly, 6-8 gives 2/twice-weekly, 9-11 gives 3/daily,
and 12 or more gives 4/constant. The boundary values 2, 3, 5, 6, 8, 9, 11
and 12 are instances (see the witness). -/
theorem spec_C3_tier_table (now : Nat) (a : ActorInput) :
    (0 ≤ a.mortalidade.getD 0 → a.mortalidade.getD 0 ≤ 2 →
      (prepareDerivedData now a).penalty = 0 ∧ (prepareDerivedData now a).hunt = "none") ∧
    (3 ≤ a.mortalidade.getD 0 → a.mortalidade.getD 0 ≤ 5 →
      (prepareDerivedData now a).penalty = 1 ∧ (prepareDerivedData now a).hunt = "weekly") ∧
    (6 ≤ a.mortalidade.getD 0 → a.mortalidade.getD 0 ≤ 8 →
      (prepareDerivedData now a).penalty = 2 ∧
        (prepareDerivedData now a).hunt = "twice-weekly") ∧
    (9 ≤ a.mortalidade.getD 0 → a.mortalidade.getD 0 ≤ 11 →
      (prepareDerivedData now a).penalty = 3 ∧ (prepareDerivedData now a).hunt = "daily") ∧
    (12 ≤ a.mortalidade.getD 0 →
      (prepareDerivedData now a).penalty = 4 ∧
        (prepareDerivedData now a).hunt = "constant") := by
  rw [prepare_penalty, prepare_hunt, mortalityTier_eq]
  refine ⟨?_, ?_, ?_, ?_, ?_⟩ <;>
    intros <;> split_ifs <;> first | exact ⟨rfl, rfl⟩ | (exfalso; omega)

/-- C3 witness: the eight boundary Mortalidade values from the spec's
boundary test, run through the Deriver. -/
theorem spec_C3_witness :
    ((prepareDerivedData 0 (inputMort 2)).penalty = 0 ∧
      (prepareDerivedData 0 (inputMort 2)).hunt = "none") ∧
    ((prepareDerivedData 0 (inputMort 3)).penalty = 1 ∧
      (prepareDerivedData 0 (inputMort 3)).hunt = "weekly") ∧
    ((prepareDerivedData 0 (inputMort 5)).penalty = 1 ∧
      (prepareDerivedData 0 (inputMort 5)).hunt = "weekly") ∧
    ((prepareDerivedData 0 (inputMort 6)).penalty = 2 ∧
      (prepareDerivedData 0 (inputMort 6)).hunt = "twice-weekly") ∧
    ((prepareDerivedData 0 (inputMort 8)).penalty = 2 ∧
      (prepareDerivedData 0 (inputMort 8)).hunt = "twice-weekly") ∧
    ((prepareDerivedData 0 (inputMort 9)).penalty = 3 ∧
      (prepareDerivedData 0 (inputMort 9)).hunt = "daily") ∧
    ((prepareDerivedData 0 (inputMort 11)).penalty = 3 ∧
      (prepareDerivedData 0 (inputMort 11)).hunt = "daily") ∧
    ((prepareDerivedData 0 (inputMort 12)).penalty = 4 ∧
      (prepareDerivedData 0 (inputMort 12)).hunt = "constant") :=
  ⟨(spec_C3_tier_table 0 (inputMort 2)).1 (by decide) (by decide),
   (spec_C3_tier_table 0 (inputMort 3)).2.1 (by decide) (by decide),
   (spec_C3_tier_table 0 (inputMort 5)).2.1 (by decide) (by decide),
   (spec_C3_tier_table 0 (inputMort 6)).2.2.1 (by decide) (by decide),
   (spec_C3_tier_table 0 (inputMort 8)).2.2.1 (by decide) (by decide),
   (spec_C3_tier_table 0 (inputMort 9)).2.2.2.1 (by decide) (by decide),
   (spec_C3_tier_table 0 (inputMort 11)).2.2.2.1 (by decide) (by decide),
   (spec_C3_tier_table 0 (inputMort 12)).2.2.2.2 (by decide)⟩

/-! ### C10 -/

/-- C10: for every Mortalidade value strictly below 3 — negative values
included, which the spec table starting at 0 does not cover — the Deriver
sets the penalty tier to 0 and the hunt frequency to `none` (the final
`else` of the cascade). -/
theorem spec_C10_low_mortality (now : Nat) (a : ActorInput)
    (h : a.mortalidade.getD 0 < 3) :
    (prepareDerivedData now a).penalty = 0 ∧
    (prepareDerivedData now a).hunt = "none" := by
  rw [prepare_penalty, prepare_hunt, mortalityTier_eq]
  split_ifs <;> first | exact ⟨rfl, rfl⟩ | (exfalso; omega)

/-- C10 witness: Mortalidade -5 maps to penalty 0 and frequency `none`. -/
theorem spec_C10_witness :
    (inputMort (-5)).mortalidade.getD 0 < 3 ∧
    ((prepareDerivedData 0 (inputMort (-5))).penalty = 0 ∧
      (prepareDerivedData 0 (inputMort (-5))).hunt = "none") :=
  ⟨by decide, spec_C10_low_mortality 0 (inputMort (-5)) (by decide)⟩

/-! ### Fixtures for roll claims -/

/-- A normalized actor: Humanidade 6 / Bestialidade 6, reserve 3 of 7,
Briga rating 3. -/
def baseState : ActorState :=
  { humanidade := 6
    bestialidade := 6
    mortalidade := 0
    reservaCurrent := 3
    reservaMax := 7
    penalty := 0
    hunt := "none"
    skills := [("briga", 3)]
    lastMortalityLevel := some "none"
    history := []
    scheduled := [] }

/-- `baseState` with an empty reserve. -/
def stateEmptyReserva : ActorState := { baseState with reservaCurrent := 0 }

/-! ### C4 -/

/-- C4: a resolved roll in Sagrado mode decrements the reserve by 1
(floored at 0), contributes `Math.ceil(d6 / 2)` for the spent die (range
1-3 for `d6 ∈ [1,6]`), leaves Humanidade and Bestialidade unchanged, and
returns `d12 + rating + ceil(d6/2) + modifier`. -/
theorem spec_C4_sacred_roll (now : Nat) (d6 d12 situationalMod : Int)
    (skillKey : String) (s : ActorState)
    (h1 : 1 ≤ d6) (h2 : d6 ≤ 6) (g1 : 1 ≤ d12) (g2 : d12 ≤ 12) :
    (executeSkillRoll now d6 d12 skillKey false situationalMod s).1.reservaCurrent
      = max 0 (s.reservaCurrent - 1) ∧
    1 ≤ ceilHalf d6 ∧ ceilHalf d6 ≤ 3 ∧
    (executeSkillRoll now d6 d12 skillKey false situationalMod s).1.humanidade
      = s.humanidade ∧
    (executeSkillRoll now d6 d12 skillKey false situationalMod s).1.bestialidade
      = s.bestialidade ∧
    (executeSkillRoll now d6 d12 skillKey false situationalMod s).2
      = d12 + skillLookup s.skills skillKey + ceilHalf d6 + situationalMod := by
  refine ⟨rfl, ?_, ?_, rfl, rfl, rfl⟩ <;> (interval_cases d6 <;> decide)

/-- C4 witness: the spec scenario — rating 3, `d6 = 5`, `d12 = 7`,
modifier 0 on `baseState` (Humanidade 6 / Bestialidade 6). -/
theorem spec_C4_witness :
    (executeSkillRoll 0 5 7 "briga" false 0 baseState).1.reservaCurrent
      = max 0 (baseState.reservaCurrent - 1) ∧
    1 ≤ ceilHalf 5 ∧ ceilHalf 5 ≤ 3 ∧
    (executeSkillRoll 0 5 7 "briga" false 0 baseState).1.humanidade
      = baseState.humanidade ∧
    (executeSkillRoll 0 5 7 "briga" false 0 baseState).1.bestialidade
      = baseState.bestialidade ∧
    (executeSkillRoll 0 5 7 "briga" false 0 baseState).2
      = 7 + skillLookup baseState.skills "briga" + ceilHalf 5 + 0 :=
  spec_C4_sacred_roll 0 5 7 0 "briga" baseState
    (by decide) (by decide) (by decide) (by decide)

/-! ### C5 -/

/-- C5: a resolved roll in Umbral mode decrements the reserve by 1
(floored at 0), raises Bestialidade to `min(11, bestialidade + 1)`,
recomputes Humanidade as `max(0, 12 - newBestialidade)`, contributes the
raw `d6` for the spent die, and returns `d12 + rating + d6 + modifier`. -/
theorem spec_C5_umbral_roll (now : Nat) (d6 d12 situationalMod : Int)
    (skillKey : String) (s : ActorState) :
    (executeSkillRoll now d6 d12 skillKey true situationalMod s).1.reservaCurrent
      = max 0 (s.reservaCurrent - 1) ∧
    (executeSkillRoll now d6 d12 skillKey true situationalMod s).1.bestialidade
      = min 11 (s.bestialidade + 1) ∧
    (executeSkillRoll now d6 d12 skillKey true situationalMod s).1.humanidade
      = max 0 (12 - min 11 (s.bestialidade + 1)) ∧
    (executeSkillRoll now d6 d12 skillKey true situationalMod s).2
      = d12 + skillLookup s.skills skillKey + d6 + situationalMod :=
  ⟨rfl, rfl, rfl, rfl⟩

/-! ### C6 -/

/-- C6: `rollSkill` rejects with no state change exactly when its
preconditions fail — an unconfigured skill key reports `unknownSkill` and
an empty reserve reports `noResourceAvailable`, each returning the actor
untouched; otherwise no rejection is reported. -/
theorem spec_C6_roll_preconditions (now : Nat) (d6 d12 situationalMod : Int)
    (skillKey : String) (umbral : Bool) (s : ActorState) :
    (skillKey ∉ configSkills →
      rollSkill now d6 d12 skillKey umbral situationalMod s
        = (s, none, some RollError.unknownSkill)) ∧
    (skillKey ∈ configSkills → s.reservaCurrent ≤ 0 →
      rollSkill now d6 d12 skillKey umbral situationalMod s
        = (s, none, some RollError.noResourceAvailable)) ∧
    (skillKey ∈ configSkills → 0 < s.reservaCurrent →
      (rollSkill now d6 d12 skillKey umbral situationalMod s).2.2 = none) := by
  refine ⟨?_, ?_, ?_⟩
  · intro h
    simp only [rollSkill]
    rw [if_pos h]
  · intro h1 h2
    simp only [rollSkill]
    rw [if_neg (not_not_intro h1), if_pos h2]
  · intro h1 h2
    simp only [rollSkill]
    rw [if_neg (not_not_intro h1), if_neg (by omega)]

/-- C6 witness: the unknown key `"xyz"` is rejected on `baseState`, a
configured key with an empty reserve is rejected, and a configured key
with a positive reserve is not rejected. -/
theorem spec_C6_witness :
    rollSkill 0 1 1 "xyz" false 0 baseState
      = (baseState, none, some RollError.unknownSkill) ∧
    rollSkill 0 1 1 "briga" false 0 stateEmptyReserva
      = (stateEmptyReserva, none, some RollError.noResourceAvailable) ∧
    (rollSkill 0 1 1 "briga" false 0 baseState).2.2 = none :=
  ⟨(spec_C6_roll_preconditions 0 1 1 0 "xyz" false baseState).1 (by decide),
   (spec_C6_roll_preconditions 0 1 1 0 "briga" false stateEmptyReserva).2.1
     (by decide) (by decide),
   (spec_C6_roll_preconditions 0 1 1 0 "briga" false baseState).2.2
     (by decide) (by decide)⟩

/-! ### C7 -/

theorem normalizeBestialidade_idem (h b : Int) :
    normalizeBestialidade h (normalizeBestialidade h b) = normalizeBestialidade h b := by
  unfold normalizeBestialidade
  split_ifs <;> omega

theorem clampReserva_le (rmax : Int) : ∀ oc, clampReserva rmax oc ≤ rmax
  | none => le_refl _
  | some c => by
      simp only [clampReserva]
      split <;> omega

theorem prepare_current_le (now : Nat) (a : ActorInput) :
    (prepareDerivedData now a).reservaCurrent ≤ (prepareDerivedData now a).reservaMax := by
  rw [prepare_reservaCurrent]
  exact clampReserva_le _ _

/-- Running the Deriver on a record that already satisfies every derived
invariant returns it unchanged. -/
theorem prepare_settled (now : Nat) (s : ActorState)
    (hb : normalizeBestialidade s.humanidade s.bestialidade = s.bestialidade)
    (hmax : s.reservaMax = s.bestialidade + 1)
    (hcur : s.reservaCurrent ≤ s.reservaMax)
    (hp : s.penalty = (mortalityTier s.mortalidade).1)
    (hh : s.hunt = (mortalityTier s.mortalidade).2)
    (hl : s.lastMortalityLevel = some (mortalityTier s.mortalidade).2) :
    prepareDerivedData now s.toInput = s := by
  ext : 1
  · rw [prepare_humanidade]; rfl
  · rw [prepare_bestialidade]; exact hb
  · rw [prepare_mortalidade]; rfl
  · rw [prepare_reservaCurrent, prepare_reservaMax]
    show clampReserva (normalizeBestialidade s.humanidade s.bestialidade + 1)
        (some s.reservaCurrent) = s.reservaCurrent
    rw [hb, ← hmax]
    simp only [clampReserva]
    split <;> omega
  · rw [prepare_reservaMax]
    show normalizeBestialidade s.humanidade s.bestialidade + 1 = s.reservaMax
    rw [hb, ← hmax]
  · rw [prepare_penalty]; exact hp.symm
  · rw [prepare_hunt]; exact hh.symm
  · rw [prepare_skills]; rfl
  · rw [prepare_lastLevel]; exact hl.symm
  · rw [prepare_history]
    show (if s.lastMortalityLevel ≠ some (mortalityTier s.mortalidade).2 then
        s.history
          ++ [HistoryEntry.mortalidade now (mortalityTier s.mortalidade).2 s.mortalidade]
      else s.history) = s.history
    rw [if_neg (not_not_intro hl)]
  · rw [prepare_scheduled]
    show (if s.lastMortalityLevel ≠ some (mortalityTier s.mortalidade).2 then
        (if (mortalityTier s.mortalidade).2 ≠ "none" then
          s.scheduled ++ [(mortalityTier s.mortalidade).2]
        else s.scheduled)
      else s.scheduled) = s.scheduled
    rw [if_neg (not_not_intro hl)]

/-- C7: the Attribute Deriver is idempotent — running
`prepareDerivedData` a second time (with any later timestamp, no external
change in between) returns the first run's record unchanged; in
particular the second run appends no history entry. -/
theorem spec_C7_idempotent (now later : Nat) (a : ActorInput) :
    prepareDerivedData later (prepareDerivedData now a).toInput
      = prepareDerivedData now a := by
  apply prepare_settled
  · rw [prepare_humanidade, prepare_bestialidade]
    exact normalizeBestialidade_idem _ _
  · rw [prepare_reservaMax, prepare_bestialidade]
  · exact prepare_current_le now a
  · rw [prepare_penalty, prepare_mortalidade]
  · rw [prepare_hunt, prepare_mortalidade]
  · rw [prepare_lastLevel, prepare_mortalidade]

/-! ### C8 -/

theorem applyEdit_lastLevel (s : ActorState) (p : Nat × Int) :
    (applyCorruptionEdit s p).lastMortalityLevel = some (mortalityTier p.2).2 := by
  unfold applyCorruptionEdit
  rw [prepare_lastLevel]
  rfl

theorem countTransitions_cons (last : Option String) (f : String)
    (rest : List String) :
    countTransitions last (f :: rest)
      = (if last ≠ some f then 1 else 0) + countTransitions (some f) rest := rfl

theorem applyEdit_history_len (s : ActorState) (p : Nat × Int) :
    (applyCorruptionEdit s p).history.length
      = s.history.length
        + (if s.lastMortalityLevel ≠ some (mortalityTier p.2).2 then 1 else 0) := by
  unfold applyCorruptionEdit
  rw [prepare_history]
  show (if s.lastMortalityLevel ≠ some (mortalityTier p.2).2 then
      s.history ++ [HistoryEntry.mortalidade p.1 (mortalityTier p.2).2 p.2]
    else s.history).length = _
  split <;> simp

theorem runDeriver_history_len (updates : List (Nat × Int)) (s : ActorState) :
    (runDeriver s updates).history.length
      = s.history.length
        + countTransitions s.lastMortalityLevel
            (updates.map fun p => (mortalityTier p.2).2) := by
  induction updates generalizing s with
  | nil => rfl
  | cons p rest ih =>
    show (runDeriver (applyCorruptionEdit s p) rest).history.length = _
    rw [ih (applyCorruptionEdit s p), applyEdit_history_len, applyEdit_lastLevel]
    rw [List.map_cons, countTransitions_cons]
    split <;> omega

/-- C8: across any sequence of Deriver invocations (each preceded by an
external Mortalidade edit), the number of `mortalidade` history entries
appended equals the number of hunt-frequency transitions — invocations
whose newly computed frequency matches the last-seen marker append
nothing — and a single re-run with an unchanged frequency appends no
history entry and schedules no reminder. -/
theorem spec_C8_threshold_log (s : ActorState) (updates : List (Nat × Int))
    (now : Nat) (a : ActorInput) :
    ((runDeriver s updates).history.length
      = s.history.length
        + countTransitions s.lastMortalityLevel
            (updates.map fun p => (mortalityTier p.2).2)) ∧
    (a.lastMortalityLevel = some (mortalityTier (a.mortalidade.getD 0)).2 →
      (prepareDerivedData now a).history = a.history ∧
      (prepareDerivedData now a).scheduled = a.scheduled) := by
  refine ⟨runDeriver_history_len updates s, fun h => ⟨?_, ?_⟩⟩
  · rw [prepare_history, if_neg (not_not_intro h)]
  · rw [prepare_scheduled, if_neg (not_not_intro h)]

/-- C8 witness: three edits (Mortalidade 4, 4, 9 — frequencies weekly,
weekly, daily) append exactly two entries from `baseState`'s `none`
marker, and a re-run of `baseInput` (marker already `none`) appends
nothing and schedules nothing. -/
theorem spec_C8_witness :
    ((runDeriver baseState [(1, 4), (2, 4), (3, 9)]).history.length
      = baseState.history.length
        + countTransitions baseState.lastMortalityLevel
            ([(1, 4), (2, 4), (3, 9)].map fun p => (mortalityTier p.2).2)) ∧
    ((prepareDerivedData 0 baseInput).history = baseInput.history ∧
      (prepareDerivedData 0 baseInput).scheduled = baseInput.scheduled) :=
  ⟨(spec_C8_threshold_log baseState [(1, 4), (2, 4), (3, 9)] 0 baseInput).1,
   (spec_C8_threshold_log baseState [(1, 4), (2, 4), (3, 9)] 0 baseInput).2
     (by decide)⟩

/-! ### C9 -/

/-- C9 (amended): every resolved roll appends exactly one `roll` history
entry carrying the timestamp, the skill key, the returned total, the
current Mortalidade, and the Humanidade and Bestialidade values read at
the START of the resolution — for an Umbral roll these are the
pre-mutation values, not the incremented ones the original claim
asserts. -/
theorem spec_C9_roll_history (now : Nat) (d6 d12 situationalMod : Int)
    (skillKey : String) (umbral : Bool) (s : ActorState) :
    (executeSkillRoll now d6 d12 skillKey umbral situationalMod s).1.history
      = s.history
        ++ [HistoryEntry.roll now skillKey
              (executeSkillRoll now d6 d12 skillKey umbral situationalMod s).2
              s.humanidade s.bestialidade s.mortalidade] := by
  cases umbral <;> rfl

/-- C9 counterexample: an Umbral roll on `baseState` (Humanidade 6 /
Bestialidade 6, `d6 = 4`, `d12 = 2`) mutates the attributes to 5/7, yet
the appended entry snapshots 6/6 — the pre-mutation values — so the
snapshot does not reflect the already-mutated attributes. -/
theorem spec_C9_counterexample :
    (executeSkillRoll 0 4 2 "briga" true 0 baseState).1.bestialidade = 7 ∧
    (executeSkillRoll 0 4 2 "briga" true 0 baseState).1.humanidade = 5 ∧
    (executeSkillRoll 0 4 2 "briga" true 0 baseState).1.history
      = [HistoryEntry.roll 0 "briga" 9 6 6 0] := by
  decide
